import Mathlib

/-!
Shallow embedding of the Write-Audit-Publish orchestration in `src/wap_etl.py`,
centred on the function `wap_append` (lines 63-139).

Modelling decisions, each tied to the source:

* The catalog state is the state of the single Iceberg table the run is bound
  to: the WAP table property (`write.wap.enabled`), the `main` branch (a version
  number plus its rows), the named side branches, and a fresh-version counter.
  SQL identifier resolution is abstracted away: every statement of `wap_append`
  targets this one table, as in the intended invocation where the caller passes
  the fully qualified table name.
* Every `spark.sql` / read / write call is a remote call that may fail.  An
  `Oracle` records, per call site of `wap_append`, whether that call raises.
  The error kind raised at each site follows the spec's taxonomy (section 7).
* Python control flow is modelled explicitly: the `try` body short-circuits at
  the first raising call; the bare `except ... raise` re-raises unchanged
  (lines 131-132); the `finally` block (lines 136-139) always runs, and - per
  Python semantics - an exception raised inside `finally` replaces an in-flight
  exception, keeping the replaced one as the exception context.
* `wap_append` is annotated `-> None`; normal completion yields `Except.ok ()`.
  The two `print` calls (lines 112 and 130) are collected in a `prints` list.
* Rows are an arbitrary type `Row`; the audit only inspects counts
  (`DataFrame.count()` becomes `List.length`).
* The audit branch name comes from `generate_branch_name` (line 82), a
  uuid-based generator; the generated name is passed in as a parameter.
-/

namespace WapEtl

/-- Error kinds of the spec's section 7 taxonomy, used to tag which call of
`wap_append` raised. -/
inductive Err where
  | infra
  | writeErr
  | branchConflict
  | publishConflict
  deriving DecidableEq, Repr

/-- A propagating Python exception: the exception being raised plus, when it was
raised while another exception was in flight (inside `finally`), that earlier
exception as its implicit context. -/
structure PyExc where
  primary : Err
  context : Option Err
  deriving DecidableEq, Repr

/-- The catalog operations `wap_append` can attempt, in source order:
set property (line 75), list refs (line 79), drop-if-exists (line 83),
create branch (line 84), append write (lines 85-89), branch read (lines
100-103), fast-forward (line 113), drop branch (line 123), unset property
(line 139). -/
inductive Op where
  | setProp
  | showRefs
  | dropIfExists
  | createBranch
  | writeRows
  | readRows
  | fastForward
  | dropBranch
  | unsetProp
  deriving DecidableEq, Repr

/-- A branch: a named ref, i.e. a pointer to a table version together with the
rows visible at that version. -/
structure BranchInfo (Row : Type) where
  version : Nat
  rows : List Row
  deriving DecidableEq, Repr

/-- State of the one table the run is bound to. `main` is kept apart from the
side branches; `nextVersion` supplies the version a new write snapshot gets. -/
structure TableState (Row : Type) where
  wapEnabled : Bool
  mainVersion : Nat
  mainRows : List Row
  branches : List (String × BranchInfo Row)
  nextVersion : Nat
  deriving DecidableEq, Repr

/-- Per-call-site failure injection for one run of `wap_append`: `true` means
that remote call raises. -/
structure Oracle where
  setFail : Bool
  refsFail : Bool
  dropPreFail : Bool
  createFail : Bool
  writeFail : Bool
  readFail : Bool
  ffFail : Bool
  dropPostFail : Bool
  unsetFail : Bool
  deriving DecidableEq, Repr

/-- Look a branch up by name. -/
def lookupBranch {Row : Type} (bs : List (String × BranchInfo Row)) (n : String) :
    Option (BranchInfo Row) :=
  (bs.find? (fun p => p.1 == n)).map Prod.snd

/-- Remove a branch by name (`DROP BRANCH IF EXISTS` semantics: no-op when
absent). -/
def dropB {Row : Type} (bs : List (String × BranchInfo Row)) (n : String) :
    List (String × BranchInfo Row) :=
  bs.filter (fun p => !(p.1 == n))

/-- Point the named branch at a new version (the effect of an append write
scoped to that branch). -/
def updateB {Row : Type} (bs : List (String × BranchInfo Row)) (n : String)
    (i : BranchInfo Row) : List (String × BranchInfo Row) :=
  bs.map (fun p => if p.1 == n then (n, i) else p)

/-- Line 104: `audit_case_1 = branch_df.count() == data_df.count()`. -/
def auditCase1 {Row : Type} (branchRows dataRows : List Row) : Bool :=
  branchRows.length == dataRows.length

/-- Line 105: `audit_case_2 = branch_df.count() > 0`. -/
def auditCase2 {Row : Type} (branchRows : List Row) : Bool :=
  decide (0 < branchRows.length)

/-- Line 106: `audit_passed = audit_case_1 and audit_case_2`. -/
def defaultAuditPassed {Row : Type} (branchRows dataRows : List Row) : Bool :=
  auditCase1 branchRows dataRows && auditCase2 branchRows

/-- Line 112. -/
def passMsg : String := "Audit passed. Publishing changes."

/-- Line 130. -/
def failMsg : String := "Audit failed. Not publishing changes."

/-- Outcome of the `try` body (lines 67-130): result, table state, attempted
catalog operations in order, printed messages in order. -/
structure BodyOut (Row : Type) where
  result : Except Err Unit
  state : TableState Row
  ops : List Op
  prints : List String

/-- Outcome of the whole `wap_append` call, after `except`/`finally`. -/
structure RunOut (Row : Type) where
  result : Except PyExc Unit
  state : TableState Row
  ops : List Op
  prints : List String

/-- The `try` body of `wap_append` (lines 67-130), sequenced exactly as in the
source, short-circuiting at the first raising call. -/
def runBody {Row : Type} (o : Oracle) (auditBranchName : String) (dataRows : List Row)
    (s : TableState Row) : BodyOut Row :=
  -- line 75: ALTER TABLE ... SET TBLPROPERTIES ('write.wap.enabled'='true')
  if o.setFail then ⟨.error .infra, s, [.setProp], []⟩ else
  let s1 : TableState Row := { s with wapEnabled := true }
  -- line 79: SELECT * FROM ...refs (informative listing)
  if o.refsFail then ⟨.error .infra, s1, [.setProp, .showRefs], []⟩ else
  -- line 83: ALTER TABLE ... DROP BRANCH IF EXISTS <audit_branch_name>
  if o.dropPreFail then ⟨.error .infra, s1, [.setProp, .showRefs, .dropIfExists], []⟩ else
  let s2 : TableState Row := { s1 with branches := dropB s1.branches auditBranchName }
  -- line 84: ALTER TABLE ... CREATE BRANCH <audit_branch_name>
  if o.createFail then
    ⟨.error .branchConflict, s2, [.setProp, .showRefs, .dropIfExists, .createBranch], []⟩ else
  let s3 : TableState Row :=
    { s2 with branches := s2.branches ++ [(auditBranchName, ⟨s2.mainVersion, s2.mainRows⟩)] }
  -- lines 85-89: data_df.write.format("iceberg").mode("append").option("branch", ...).save(...)
  if o.writeFail then
    ⟨.error .writeErr, s3,
      [.setProp, .showRefs, .dropIfExists, .createBranch, .writeRows], []⟩ else
  let b0 : BranchInfo Row := (lookupBranch s3.branches auditBranchName).getD ⟨0, []⟩
  let s4 : TableState Row :=
    { s3 with
      branches := updateB s3.branches auditBranchName ⟨s3.nextVersion, b0.rows ++ dataRows⟩,
      nextVersion := s3.nextVersion + 1 }
  -- lines 100-103: branch_df = spark.read.format("iceberg").option("branch", ...).load(...)
  if o.readFail then
    ⟨.error .infra, s4,
      [.setProp, .showRefs, .dropIfExists, .createBranch, .writeRows, .readRows], []⟩ else
  let audited : BranchInfo Row := (lookupBranch s4.branches auditBranchName).getD ⟨0, []⟩
  -- lines 104-106
  if defaultAuditPassed audited.rows dataRows then
    -- line 112 print, then line 113: CALL ...system.fast_forward(..., 'main', ...)
    if o.ffFail then
      ⟨.error .publishConflict, s4,
        [.setProp, .showRefs, .dropIfExists, .createBranch, .writeRows, .readRows,
          .fastForward], [passMsg]⟩ else
    let s5 : TableState Row :=
      { s4 with mainVersion := audited.version, mainRows := audited.rows }
    -- line 123: ALTER TABLE ... DROP BRANCH <audit_branch_name>
    if o.dropPostFail then
      ⟨.error .infra, s5,
        [.setProp, .showRefs, .dropIfExists, .createBranch, .writeRows, .readRows,
          .fastForward, .dropBranch], [passMsg]⟩ else
    ⟨.ok (), { s5 with branches := dropB s5.branches auditBranchName },
      [.setProp, .showRefs, .dropIfExists, .createBranch, .writeRows, .readRows,
        .fastForward, .dropBranch], [passMsg]⟩
  else
    -- line 130 print; fall through to finally
    ⟨.ok (), s4,
      [.setProp, .showRefs, .dropIfExists, .createBranch, .writeRows, .readRows], [failMsg]⟩

/-- The whole of `wap_append` (lines 63-139): run the `try` body; `except
Exception: raise` re-raises unchanged; the `finally` block always attempts the
property unset (line 139).  Per Python semantics, if the unset itself raises
while an exception is propagating, the unset's exception is the one surfaced
and the earlier one becomes its context. -/
def wapAppend {Row : Type} (o : Oracle) (auditBranchName : String) (dataRows : List Row)
    (s : TableState Row) : RunOut Row :=
  let b := runBody o auditBranchName dataRows s
  if o.unsetFail then
    match b.result with
    | .ok _ => ⟨.error ⟨.infra, none⟩, b.state, b.ops ++ [.unsetProp], b.prints⟩
    | .error e => ⟨.error ⟨.infra, some e⟩, b.state, b.ops ++ [.unsetProp], b.prints⟩
  else
    match b.result with
    | .ok _ => ⟨.ok (), { b.state with wapEnabled := false }, b.ops ++ [.unsetProp], b.prints⟩
    | .error e =>
        ⟨.error ⟨e, none⟩, { b.state with wapEnabled := false }, b.ops ++ [.unsetProp], b.prints⟩

/-! Concrete fixtures for witnesses and counterexamples. -/

/-- A run in which every remote call succeeds. -/
def okOracle : Oracle := ⟨false, false, false, false, false, false, false, false, false⟩

/-- An empty table with `main` at version 0 and no side branches. -/
def st0 : TableState Nat := ⟨false, 0, [], [], 1⟩

/-- A table whose `main` branch already holds one row. -/
def st1 : TableState Nat := ⟨false, 0, [7], [], 1⟩

/-! Association-list lemmas used to normalise the branch list along the run. -/

@[simp]
theorem lookupBranch_dropB {Row : Type} (bs : List (String × BranchInfo Row)) (n : String) :
    lookupBranch (dropB bs n) n = none := by
  simp only [lookupBranch, dropB, Option.map_eq_none', List.find?_eq_none, List.mem_filter]
  intro p hp
  simpa using hp.2

@[simp]
theorem lookupBranch_dropB_append {Row : Type} (bs : List (String × BranchInfo Row))
    (n : String) (i : BranchInfo Row) :
    lookupBranch (dropB bs n ++ [(n, i)]) n = some i := by
  induction bs with
  | nil => simp [lookupBranch, dropB]
  | cons p t ih =>
      by_cases h : p.1 = n
      · simp [dropB, List.filter_cons, h] at ih ⊢
        exact ih
      · simp [lookupBranch, dropB, List.filter_cons, h]

@[simp]
theorem updateB_dropB {Row : Type} (bs : List (String × BranchInfo Row)) (n : String)
    (j : BranchInfo Row) : updateB (dropB bs n) n j = dropB bs n := by
  induction bs with
  | nil => rfl
  | cons p t ih =>
      by_cases h : p.1 = n
      · simpa [dropB, List.filter_cons, h] using ih
      · simpa [dropB, updateB, List.filter_cons, h] using ih

@[simp]
theorem updateB_dropB_append {Row : Type} (bs : List (String × BranchInfo Row)) (n : String)
    (i j : BranchInfo Row) :
    updateB (dropB bs n ++ [(n, i)]) n j = dropB bs n ++ [(n, j)] := by
  have h1 : updateB (dropB bs n) n j = dropB bs n := updateB_dropB bs n j
  simp only [updateB, List.map_append]
  simp only [updateB] at h1
  rw [h1]
  simp

@[simp]
theorem dropB_dropB_append {Row : Type} (bs : List (String × BranchInfo Row)) (n : String)
    (i : BranchInfo Row) : dropB (dropB bs n ++ [(n, i)]) n = dropB bs n := by
  simp only [dropB, List.filter_append, List.filter_filter]
  simp [List.filter_cons]

/-- The audit verdict of lines 104-106, unfolded to its two checks. -/
@[simp]
theorem defaultAuditPassed_eq_true_iff {Row : Type} (b d : List Row) :
    defaultAuditPassed b d = true ↔ (b.length = d.length ∧ 0 < b.length) := by
  simp [defaultAuditPassed, auditCase1, auditCase2]

/-! Additional concrete oracles for witnesses and counterexamples. -/

/-- A run whose append write raises. -/
def writeFailOracle : Oracle := ⟨false, false, false, false, true, false, false, false, false⟩

/-- A run whose append write raises and whose cleanup unset also raises. -/
def writeUnsetFailOracle : Oracle :=
  ⟨false, false, false, false, true, false, false, false, true⟩

/-- A run whose CREATE BRANCH raises. -/
def createFailOracle : Oracle := ⟨false, false, false, true, false, false, false, false, false⟩

/-- A run whose initial SET TBLPROPERTIES raises. -/
def setFailOracle : Oracle := ⟨true, false, false, false, false, false, false, false, false⟩

/-- C1: on every exit path of `wap_append` — publish, reject, or an error raised
at any step — the `finally` block attempts the property unset, and whenever that
unset call itself succeeds, the WAP-enabled table property is unset in the final
table state, whatever the initial state and wherever the run failed. -/
theorem wap_enabled_unset_on_all_exits {Row : Type} (o : Oracle) (n : String)
    (d : List Row) (s : TableState Row) (h : o.unsetFail = false) :
    Op.unsetProp ∈ (wapAppend o n d s).ops ∧
      (wapAppend o n d s).state.wapEnabled = false := by
  unfold wapAppend
  cases hr : (runBody o n d s).result <;> simp [h, hr]

theorem wap_enabled_unset_on_all_exits_witness :
    Op.unsetProp ∈ (wapAppend writeFailOracle "audit_branch_w1" ([] : List Nat) st0).ops ∧
      (wapAppend writeFailOracle "audit_branch_w1" ([] : List Nat) st0).state.wapEnabled
        = false :=
  wap_enabled_unset_on_all_exits writeFailOracle "audit_branch_w1" [] st0 rfl

/-- C2: in a run whose remote calls succeed and whose audit verdict is passed,
after the call main's version equals the version the audit branch had at read
time (the fresh write snapshot), main's rows are the audit branch's rows at read
time, and the audit branch no longer exists. -/
theorem publish_advances_main_and_drops_audit {Row : Type} (o : Oracle) (n : String)
    (d : List Row) (s : TableState Row)
    (h1 : o.setFail = false) (h2 : o.refsFail = false) (h3 : o.dropPreFail = false)
    (h4 : o.createFail = false) (h5 : o.writeFail = false) (h6 : o.readFail = false)
    (hpass : defaultAuditPassed (s.mainRows ++ d) d = true)
    (h7 : o.ffFail = false) (h8 : o.dropPostFail = false) :
    (wapAppend o n d s).state.mainVersion = s.nextVersion ∧
      (wapAppend o n d s).state.mainRows = s.mainRows ++ d ∧
      lookupBranch (wapAppend o n d s).state.branches n = none := by
  cases h9 : o.unsetFail <;>
    simp [wapAppend, runBody, h1, h2, h3, h4, h5, h6, h7, h8, h9, hpass]

theorem publish_advances_main_and_drops_audit_witness :
    (wapAppend okOracle "audit_branch_w2" ([5] : List Nat) st0).state.mainVersion
        = st0.nextVersion ∧
      (wapAppend okOracle "audit_branch_w2" ([5] : List Nat) st0).state.mainRows
        = st0.mainRows ++ [5] ∧
      lookupBranch (wapAppend okOracle "audit_branch_w2" ([5] : List Nat) st0).state.branches
        "audit_branch_w2" = none :=
  publish_advances_main_and_drops_audit okOracle "audit_branch_w2" [5] st0
    rfl rfl rfl rfl rfl rfl (by decide) rfl rfl

/-- C3: in a run whose remote calls succeed and whose audit verdict is failed,
the call terminates normally (no error), main's version and rows are unchanged,
the audit branch still exists and holds the written rows (base rows plus the
appended payload), and the post-publish branch drop is never attempted. -/
theorem reject_is_normal_and_retains_audit {Row : Type} (o : Oracle) (n : String)
    (d : List Row) (s : TableState Row)
    (h1 : o.setFail = false) (h2 : o.refsFail = false) (h3 : o.dropPreFail = false)
    (h4 : o.createFail = false) (h5 : o.writeFail = false) (h6 : o.readFail = false)
    (hfail : defaultAuditPassed (s.mainRows ++ d) d = false)
    (h9 : o.unsetFail = false) :
    (wapAppend o n d s).result = .ok () ∧
      (wapAppend o n d s).state.mainVersion = s.mainVersion ∧
      (wapAppend o n d s).state.mainRows = s.mainRows ∧
      lookupBranch (wapAppend o n d s).state.branches n
        = some ⟨s.nextVersion, s.mainRows ++ d⟩ ∧
      Op.dropBranch ∉ (wapAppend o n d s).ops := by
  simp [wapAppend, runBody, h1, h2, h3, h4, h5, h6, h9, hfail]

theorem reject_is_normal_and_retains_audit_witness :
    (wapAppend okOracle "audit_branch_w3" ([5] : List Nat) st1).result = .ok () ∧
      (wapAppend okOracle "audit_branch_w3" ([5] : List Nat) st1).state.mainVersion
        = st1.mainVersion ∧
      (wapAppend okOracle "audit_branch_w3" ([5] : List Nat) st1).state.mainRows
        = st1.mainRows ∧
      lookupBranch (wapAppend okOracle "audit_branch_w3" ([5] : List Nat) st1).state.branches
        "audit_branch_w3" = some ⟨st1.nextVersion, st1.mainRows ++ [5]⟩ ∧
      Op.dropBranch ∉ (wapAppend okOracle "audit_branch_w3" ([5] : List Nat) st1).ops :=
  reject_is_normal_and_retains_audit okOracle "audit_branch_w3" [5] st1
    rfl rfl rfl rfl rfl rfl (by decide) rfl

/-- C4 counterexample: in a concrete run whose append write raises `WriteError`
and whose `finally` unset also raises, the exception surfaced to the caller is
the cleanup's `InfrastructureError`, not the in-flight write error — the cleanup
failure does replace the primary error (the write error survives only as the
exception context), contrary to the claim. -/
theorem cleanup_failure_replaces_primary_counterexample :
    (wapAppend writeUnsetFailOracle "audit_branch_c4" ([5] : List Nat) st0).result
        = .error ⟨Err.infra, some Err.writeErr⟩ ∧
      Err.infra ≠ Err.writeErr := by
  exact ⟨rfl, by decide⟩

/-- C4 amended: when the try body of `wap_append` raises an error, the call
surfaces that error unchanged only if the `finally` unset succeeds; if the unset
itself raises, the unset's error is surfaced as primary and the body's error is
demoted to the exception's context (Python `finally` semantics). -/
theorem finally_error_replaces_primary {Row : Type} (o : Oracle) (n : String)
    (d : List Row) (s : TableState Row) (e : Err)
    (h : (runBody o n d s).result = .error e) :
    (wapAppend o n d s).result =
      (if o.unsetFail then Except.error ⟨Err.infra, some e⟩ else Except.error ⟨e, none⟩) := by
  unfold wapAppend
  cases h9 : o.unsetFail <;> simp [h9, h]

theorem finally_error_replaces_primary_witness :
    (wapAppend writeUnsetFailOracle "audit_branch_w4" ([5] : List Nat) st0).result =
      (if writeUnsetFailOracle.unsetFail then Except.error ⟨Err.infra, some Err.writeErr⟩
        else Except.error ⟨Err.writeErr, none⟩) :=
  finally_error_replaces_primary writeUnsetFailOracle "audit_branch_w4" [5] st0
    Err.writeErr rfl

/-- C5: in a run whose remote calls through the branch read succeed, the audit
verdict is passed (observable as the publish print of line 112) if and only if
both default checks hold of the audit-branch rows: their count equals the
payload's count, and the result is non-empty. -/
theorem audit_verdict_iff_both_checks {Row : Type} (o : Oracle) (n : String)
    (d : List Row) (s : TableState Row)
    (h1 : o.setFail = false) (h2 : o.refsFail = false) (h3 : o.dropPreFail = false)
    (h4 : o.createFail = false) (h5 : o.writeFail = false) (h6 : o.readFail = false) :
    passMsg ∈ (wapAppend o n d s).prints ↔
      ((s.mainRows ++ d).length = d.length ∧ 0 < (s.mainRows ++ d).length) := by
  rw [← defaultAuditPassed_eq_true_iff]
  cases hp : defaultAuditPassed (s.mainRows ++ d) d <;>
    cases h9 : o.unsetFail <;> cases h7 : o.ffFail <;> cases h8 : o.dropPostFail <;>
      simp [wapAppend, runBody, h1, h2, h3, h4, h5, h6, h7, h8, h9, hp, passMsg, failMsg]

theorem audit_verdict_iff_both_checks_witness :
    passMsg ∈ (wapAppend okOracle "audit_branch_w5" ([5] : List Nat) st0).prints ↔
      ((st0.mainRows ++ [5]).length = [5].length ∧ 0 < (st0.mainRows ++ [5]).length) :=
  audit_verdict_iff_both_checks okOracle "audit_branch_w5" [5] st0
    rfl rfl rfl rfl rfl rfl

/-- C6: in a run whose append write raises (earlier calls and the cleanup unset
succeeding), the surfaced error is the write's `WriteError` unchanged, no
post-publish branch drop is attempted, the audit branch is left in place (still
pointing at the pre-write version with the base rows), main is untouched, and
the cleanup unset was attempted before the error surfaced. -/
theorem write_failure_no_drop_write_error {Row : Type} (o : Oracle) (n : String)
    (d : List Row) (s : TableState Row)
    (h1 : o.setFail = false) (h2 : o.refsFail = false) (h3 : o.dropPreFail = false)
    (h4 : o.createFail = false) (hw : o.writeFail = true) (h9 : o.unsetFail = false) :
    (wapAppend o n d s).result = .error ⟨Err.writeErr, none⟩ ∧
      Op.dropBranch ∉ (wapAppend o n d s).ops ∧
      lookupBranch (wapAppend o n d s).state.branches n
        = some ⟨s.mainVersion, s.mainRows⟩ ∧
      (wapAppend o n d s).state.mainVersion = s.mainVersion ∧
      (wapAppend o n d s).state.mainRows = s.mainRows ∧
      Op.unsetProp ∈ (wapAppend o n d s).ops := by
  simp [wapAppend, runBody, h1, h2, h3, h4, hw, h9]

theorem write_failure_no_drop_write_error_witness :
    (wapAppend writeFailOracle "audit_branch_w6" ([5] : List Nat) st0).result
        = .error ⟨Err.writeErr, none⟩ ∧
      Op.dropBranch ∉ (wapAppend writeFailOracle "audit_branch_w6" ([5] : List Nat) st0).ops ∧
      lookupBranch
          (wapAppend writeFailOracle "audit_branch_w6" ([5] : List Nat) st0).state.branches
          "audit_branch_w6" = some ⟨st0.mainVersion, st0.mainRows⟩ ∧
      (wapAppend writeFailOracle "audit_branch_w6" ([5] : List Nat) st0).state.mainVersion
        = st0.mainVersion ∧
      (wapAppend writeFailOracle "audit_branch_w6" ([5] : List Nat) st0).state.mainRows
        = st0.mainRows ∧
      Op.unsetProp ∈ (wapAppend writeFailOracle "audit_branch_w6" ([5] : List Nat) st0).ops :=
  write_failure_no_drop_write_error writeFailOracle "audit_branch_w6" [5] st0
    rfl rfl rfl rfl rfl rfl

/-- C7 counterexample: in a concrete run whose CREATE BRANCH raises a branch
conflict, `wap_append` makes exactly one create attempt — there is no retry with
a regenerated name — and the conflict error propagates to the caller, contrary
to the claim that creation is retried at least once before failing. -/
theorem no_create_retry_counterexample :
    (wapAppend createFailOracle "audit_branch_c7" ([] : List Nat) st0).ops.count
        Op.createBranch = 1 ∧
      (wapAppend createFailOracle "audit_branch_c7" ([] : List Nat) st0).result
        = .error ⟨Err.branchConflict, none⟩ := by
  exact ⟨rfl, rfl⟩

/-- C7 amended: on a branch-creation conflict `wap_append` does not retry: the
single create attempt is the only one (the full operation sequence is drop-if-
exists, the one create, then cleanup), and the conflict error propagates to the
caller after the cleanup unset. -/
theorem single_create_attempt_conflict_propagates {Row : Type} (o : Oracle) (n : String)
    (d : List Row) (s : TableState Row)
    (h1 : o.setFail = false) (h2 : o.refsFail = false) (h3 : o.dropPreFail = false)
    (hc : o.createFail = true) (h9 : o.unsetFail = false) :
    (wapAppend o n d s).ops
        = [Op.setProp, Op.showRefs, Op.dropIfExists, Op.createBranch, Op.unsetProp] ∧
      (wapAppend o n d s).ops.count Op.createBranch = 1 ∧
      (wapAppend o n d s).result = .error ⟨Err.branchConflict, none⟩ := by
  refine ⟨?_, ?_, ?_⟩ <;> simp [wapAppend, runBody, h1, h2, h3, hc, h9, List.count_cons]

theorem single_create_attempt_conflict_propagates_witness :
    (wapAppend createFailOracle "audit_branch_w7" ([] : List Nat) st0).ops
        = [Op.setProp, Op.showRefs, Op.dropIfExists, Op.createBranch, Op.unsetProp] ∧
      (wapAppend createFailOracle "audit_branch_w7" ([] : List Nat) st0).ops.count
        Op.createBranch = 1 ∧
      (wapAppend createFailOracle "audit_branch_w7" ([] : List Nat) st0).result
        = .error ⟨Err.branchConflict, none⟩ :=
  single_create_attempt_conflict_propagates createFailOracle "audit_branch_w7" [] st0
    rfl rfl rfl rfl rfl

/-- C8 counterexample: in a concrete run whose initial SET TBLPROPERTIES
raises, the `finally` block still attempts the property-unset cleanup before
the error surfaces — contrary to the claim that on this path the unset cleanup
is not attempted. -/
theorem cleanup_attempted_after_set_failure_counterexample :
    Op.unsetProp ∈ (wapAppend setFailOracle "audit_branch_c8" ([] : List Nat) st0).ops ∧
      (wapAppend setFailOracle "audit_branch_c8" ([] : List Nat) st0).ops
        = [Op.setProp, Op.unsetProp] := by
  exact ⟨by decide, rfl⟩

/-- C8 amended: when the initial SET TBLPROPERTIES raises, `wap_append` aborts
— no branch, write, audit, or publish operation is attempted — but the
unconditional `finally` cleanup still attempts the property unset (an
idempotent no-op here, since nothing was set), and the set failure is the error
surfaced; the table state is unchanged apart from the flag being (re)cleared. -/
theorem set_failure_aborts_with_cleanup_attempt {Row : Type} (o : Oracle) (n : String)
    (d : List Row) (s : TableState Row)
    (hs : o.setFail = true) (h9 : o.unsetFail = false) :
    (wapAppend o n d s).ops = [Op.setProp, Op.unsetProp] ∧
      (wapAppend o n d s).result = .error ⟨Err.infra, none⟩ ∧
      (wapAppend o n d s).state = { s with wapEnabled := false } := by
  refine ⟨?_, ?_, ?_⟩ <;> simp [wapAppend, runBody, hs, h9]

theorem set_failure_aborts_with_cleanup_attempt_witness :
    (wapAppend setFailOracle "audit_branch_w8" ([] : List Nat) st0).ops
        = [Op.setProp, Op.unsetProp] ∧
      (wapAppend setFailOracle "audit_branch_w8" ([] : List Nat) st0).result
        = .error ⟨Err.infra, none⟩ ∧
      (wapAppend setFailOracle "audit_branch_w8" ([] : List Nat) st0).state
        = { st0 with wapEnabled := false } :=
  set_failure_aborts_with_cleanup_attempt setFailOracle "audit_branch_w8" [] st0 rfl rfl

/-- C9 counterexample: two concrete error-free runs, one publishing and one
rejecting (their status prints differ), return the very same value — Python's
`None`, here `Except.ok ()` — so the return value of `wap_append` carries no
terminal status, no audit branch name and no check results, contrary to the
claim that a run result record is returned. -/
theorem returns_no_run_result_counterexample :
    (wapAppend okOracle "audit_branch_c9" ([5] : List Nat) st0).result
        = (wapAppend okOracle "audit_branch_c9" ([] : List Nat) st0).result ∧
      (wapAppend okOracle "audit_branch_c9" ([5] : List Nat) st0).prints = [passMsg] ∧
      (wapAppend okOracle "audit_branch_c9" ([] : List Nat) st0).prints = [failMsg] := by
  exact ⟨rfl, rfl, rfl⟩

/-- C9 amended: a run that completes without an error returns `None` (unit) to
the caller; the terminal status — published versus rejected — is communicated
only through the printed message, and neither the audit branch name nor the
individual check results are part of the return value. -/
theorem normal_return_is_unit_status_only_printed {Row : Type} (o : Oracle) (n : String)
    (d : List Row) (s : TableState Row)
    (h1 : o.setFail = false) (h2 : o.refsFail = false) (h3 : o.dropPreFail = false)
    (h4 : o.createFail = false) (h5 : o.writeFail = false) (h6 : o.readFail = false)
    (h7 : o.ffFail = false) (h8 : o.dropPostFail = false) (h9 : o.unsetFail = false) :
    (wapAppend o n d s).result = .ok () ∧
      (wapAppend o n d s).prints
        = [if defaultAuditPassed (s.mainRows ++ d) d then passMsg else failMsg] := by
  cases hp : defaultAuditPassed (s.mainRows ++ d) d <;>
    simp [wapAppend, runBody, h1, h2, h3, h4, h5, h6, h7, h8, h9, hp]

theorem normal_return_is_unit_status_only_printed_witness :
    (wapAppend okOracle "audit_branch_w9" ([5] : List Nat) st0).result = .ok () ∧
      (wapAppend okOracle "audit_branch_w9" ([5] : List Nat) st0).prints
        = [if defaultAuditPassed (st0.mainRows ++ [5]) [5] then passMsg else failMsg] :=
  normal_return_is_unit_status_only_printed okOracle "audit_branch_w9" [5] st0
    rfl rfl rfl rfl rfl rfl rfl rfl rfl

/-- C10: the default audit compares the full row count of the audit branch —
the base branch's rows plus the appended payload — with the payload's count, so
in any error-free run whose base (main) branch is non-empty at branch creation
and whose payload is non-empty, the row-count-equality check fails, the verdict
is failed, and nothing is published: main's version and rows are unchanged. -/
theorem nonempty_base_forces_reject {Row : Type} (o : Oracle) (n : String)
    (d : List Row) (s : TableState Row)
    (h1 : o.setFail = false) (h2 : o.refsFail = false) (h3 : o.dropPreFail = false)
    (h4 : o.createFail = false) (h5 : o.writeFail = false) (h6 : o.readFail = false)
    (h9 : o.unsetFail = false)
    (hm : s.mainRows ≠ []) (hd : d ≠ []) :
    auditCase1 (s.mainRows ++ d) d = false ∧
      defaultAuditPassed (s.mainRows ++ d) d = false ∧
      failMsg ∈ (wapAppend o n d s).prints ∧
      (wapAppend o n d s).result = .ok () ∧
      (wapAppend o n d s).state.mainVersion = s.mainVersion ∧
      (wapAppend o n d s).state.mainRows = s.mainRows := by
  have hm' : 0 < s.mainRows.length := List.length_pos.mpr hm
  have hd' : 0 < d.length := List.length_pos.mpr hd
  have hc1 : auditCase1 (s.mainRows ++ d) d = false := by
    simp only [auditCase1, List.length_append, beq_eq_false_iff_ne, ne_eq]
    omega
  have hpass : defaultAuditPassed (s.mainRows ++ d) d = false := by
    simp [defaultAuditPassed, hc1]
  refine ⟨hc1, hpass, ?_, ?_, ?_, ?_⟩ <;>
    simp [wapAppend, runBody, h1, h2, h3, h4, h5, h6, h9, hpass]

theorem nonempty_base_forces_reject_witness :
    auditCase1 (st1.mainRows ++ [5]) [5] = false ∧
      defaultAuditPassed (st1.mainRows ++ [5]) [5] = false ∧
      failMsg ∈ (wapAppend okOracle "audit_branch_wa" ([5] : List Nat) st1).prints ∧
      (wapAppend okOracle "audit_branch_wa" ([5] : List Nat) st1).result = .ok () ∧
      (wapAppend okOracle "audit_branch_wa" ([5] : List Nat) st1).state.mainVersion
        = st1.mainVersion ∧
      (wapAppend okOracle "audit_branch_wa" ([5] : List Nat) st1).state.mainRows
        = st1.mainRows :=
  nonempty_base_forces_reject okOracle "audit_branch_wa" [5] st1
    rfl rfl rfl rfl rfl rfl rfl (by decide) (by decide)

end WapEtl
